import Mathlib

/-! Verification of the Chatbox client synchronization layer: the
conversation resolver, the message stream merge, the optimistic send
controller, and the session/profile layer, embedded from
`src/components/ChatWindow.tsx`, `src/context/AuthContext.tsx` and the
`create_chat_schema.sql` migration. -/

namespace Chatbox

/-- A row of the conversations table: id plus the two participant profile
ids. Profile ids are modelled as naturals, linearly ordered as the uuid
ordering compared by the normalization trigger. -/
structure Conversation where
  id : Nat
  user1_id : Nat
  user2_id : Nat
deriving DecidableEq, Repr

/-- The conversations table state: the stored rows plus a fresh-id source
for server-assigned ids. -/
structure ConvDB where
  convs : List Conversation
  nextId : Nat
deriving DecidableEq, Repr

/-- The either-order filter of initChat's lookup query:
`or(and(user1_id.eq.A,user2_id.eq.B),and(user1_id.eq.B,user2_id.eq.A))`. -/
def matchesPair (a b : Nat) (c : Conversation) : Bool :=
  (c.user1_id == a && c.user2_id == b) || (c.user1_id == b && c.user2_id == a)

/-- The lookup query with `limit(1)`: the first stored row matching the
pair in either order. -/
def findConversation (db : ConvDB) (a b : Nat) : Option Conversation :=
  db.convs.find? (matchesPair a b)

/-- The `normalize_conversation_users` trigger: swap the pair when
`user1_id > user2_id`, so rows are stored in canonical order. -/
def normalizePair (a b : Nat) : Nat × Nat :=
  if a > b then (b, a) else (a, b)

/-- An insert into conversations: the BEFORE INSERT trigger normalizes the
pair, then the `unique_conversation_pair` constraint rejects a duplicate
of the canonical pair. -/
def insertConversation (db : ConvDB) (a b : Nat) :
    Except Unit (Conversation × ConvDB) :=
  let p := normalizePair a b
  if db.convs.any (fun c => c.user1_id == p.1 && c.user2_id == p.2) then
    .error ()
  else
    let c : Conversation := ⟨db.nextId, p.1, p.2⟩
    .ok (c, ⟨db.convs ++ [c], db.nextId + 1⟩)

/-- initChat's find-or-create step against a single table snapshot: return
the found row's id, otherwise insert the pair in the order supplied; a
conflict surfaces as the thrown error value. -/
def resolveConversation (db : ConvDB) (a b : Nat) :
    Except Unit (Nat × ConvDB) :=
  match findConversation db a b with
  | some c => .ok (c.id, db)
  | none =>
    match insertConversation db a b with
    | .ok (c, db') => .ok (c.id, db')
    | .error e => .error e

/-- The client state initChat leaves behind: the conversation ref and the
loading flag. -/
structure ChatInitState where
  conversationId : Option Nat
  loading : Bool
deriving DecidableEq, Repr

/-- initChat with the await gap made explicit: the lookup reads `dbFind`,
and by the time the insert runs the table may have advanced to `dbInsert`
(a concurrent creation by the other party). A conflict is thrown, reaches
the surrounding catch block, which only logs and clears loading; no
conversation id is recorded and no re-query happens. -/
def initChatRace (dbFind dbInsert : ConvDB) (a b : Nat) :
    ChatInitState × ConvDB :=
  match findConversation dbFind a b with
  | some c => (⟨some c.id, false⟩, dbInsert)
  | none =>
    match insertConversation dbInsert a b with
    | .ok (c, db') => (⟨some c.id, false⟩, db')
    | .error _ => (⟨none, false⟩, dbInsert)

/-- Table snapshot where the other party has already created the
conversation for the pair {1, 2}. -/
def dbRaced : ConvDB := ⟨[⟨0, 1, 2⟩], 1⟩

/-- Empty table snapshot. -/
def dbEmpty : ConvDB := ⟨[], 0⟩

/-- The either-order match is symmetric in the two profile ids. -/
theorem matchesPair_comm (a b : Nat) (c : Conversation) :
    matchesPair a b c = matchesPair b a c := by
  simp only [matchesPair]
  exact Bool.or_comm _ _

/-- The lookup query returns the same row whichever way the pair is given. -/
theorem findConversation_comm (db : ConvDB) (a b : Nat) :
    findConversation db a b = findConversation db b a := by
  unfold findConversation
  congr 1
  funext c
  exact matchesPair_comm a b c

/-- C1 counterexample: the lookup saw an empty table, the other party then
created conversation 0 for the pair, and the insert hits the uniqueness
conflict. A conversation for the pair now exists with id 0, yet initChat
resolves no conversation id at all: it does not re-query. -/
theorem initChat_conflict_no_requery :
    findConversation dbRaced 1 2 = some ⟨0, 1, 2⟩ ∧
    (initChatRace dbEmpty dbRaced 1 2).1.conversationId = none := by
  decide

/-- C1 amended: when the lookup finds nothing and the insert then fails
with the uniqueness conflict, initChat catches the thrown error, clears
the loading flag and leaves the conversation id unset; it performs no
re-query and mutates nothing. -/
theorem initChat_conflict_caught (dbFind dbInsert : ConvDB) (a b : Nat)
    (hfind : findConversation dbFind a b = none)
    (hconf : insertConversation dbInsert a b = .error ()) :
    initChatRace dbFind dbInsert a b = (⟨none, false⟩, dbInsert) := by
  unfold initChatRace
  rw [hfind, hconf]

/-- C1 amended witness: the concrete racing snapshots exercise the
conflict path. -/
theorem initChat_conflict_caught_witness :
    initChatRace dbEmpty dbRaced 1 2 = (⟨none, false⟩, dbRaced) :=
  initChat_conflict_caught dbEmpty dbRaced 1 2 (by decide) (by rfl)

/-- When the either-order lookup finds nothing, the canonical pair is not
stored, so the normalized insert succeeds. -/
theorem insertConversation_ok_of_find_none (db : ConvDB) (a b : Nat)
    (hfind : findConversation db a b = none) :
    insertConversation db a b =
      .ok (⟨db.nextId, (normalizePair a b).1, (normalizePair a b).2⟩,
        ⟨db.convs ++ [⟨db.nextId, (normalizePair a b).1, (normalizePair a b).2⟩],
          db.nextId + 1⟩) := by
  have hall : ∀ c ∈ db.convs, ¬ matchesPair a b c := by
    simpa [findConversation] using hfind
  unfold insertConversation
  have hany : db.convs.any
      (fun c => c.user1_id == (normalizePair a b).1 &&
        c.user2_id == (normalizePair a b).2) = false := by
    rw [List.any_eq_false]
    intro c hc
    have hnm := hall c hc
    simp only [matchesPair, Bool.or_eq_true, Bool.and_eq_true] at hnm
    simp only [Bool.and_eq_true, beq_iff_eq, not_and]
    unfold normalizePair
    by_cases hab : a > b
    · simp only [if_pos hab]
      intro h1 h2
      exact hnm (Or.inr ⟨by simpa using h1, by simpa using h2⟩)
    · simp only [if_neg hab]
      intro h1 h2
      exact hnm (Or.inl ⟨by simpa using h1, by simpa using h2⟩)
  simp only [hany, Bool.false_eq_true, if_false]

/-- The freshly normalized row matches the reversed-pair lookup filter. -/
theorem matchesPair_normalized (a b : Nat) :
    matchesPair b a ⟨n, (normalizePair a b).1, (normalizePair a b).2⟩ = true := by
  unfold matchesPair normalizePair
  by_cases hab : a > b
  · simp [if_pos hab]
  · simp [if_neg hab]

/-- C2: resolving the pair from A toward B and then from B toward A yields
the same conversation id: the lookup matches either stored order and the
trigger canonicalizes the pair before the uniqueness check. -/
theorem resolveConversation_symm (db : ConvDB) (a b : Nat) (hab : a ≠ b)
    (cid : Nat) (db' : ConvDB)
    (h : resolveConversation db a b = .ok (cid, db')) :
    resolveConversation db' b a = .ok (cid, db') := by
  unfold resolveConversation at h ⊢
  cases hfind : findConversation db a b with
  | some c =>
    rw [hfind] at h
    injection h with h'
    injection h' with h1 h2
    subst h1; subst h2
    rw [← findConversation_comm, hfind]
  | none =>
    rw [hfind, insertConversation_ok_of_find_none db a b hfind] at h
    injection h with h'
    injection h' with h1 h2
    subst h1; subst h2
    have hnone : (findConversation ⟨db.convs, db.nextId⟩ b a) = none := by
      rw [← findConversation_comm]
      exact hfind
    have hfind2 :
        findConversation
          ⟨db.convs ++ [⟨db.nextId, (normalizePair a b).1, (normalizePair a b).2⟩],
            db.nextId + 1⟩ b a =
          some ⟨db.nextId, (normalizePair a b).1, (normalizePair a b).2⟩ := by
      unfold findConversation at hnone ⊢
      rw [List.find?_append]
      simp only at hnone
      rw [hnone]
      simp [List.find?, matchesPair_normalized a b]
    rw [hfind2]

/-- C2 witness: starting from the empty table, resolving 1 toward 2 creates
conversation 0, and resolving 2 toward 1 afterwards returns the same id. -/
theorem resolveConversation_symm_witness :
    resolveConversation dbRaced 2 1 = .ok (0, dbRaced) :=
  resolveConversation_symm dbEmpty 1 2 (by decide) 0 dbRaced (by rfl)

/-- A row of the messages table, as selected by the client
(`id, conversation_id, sender_id, content, created_at`). Creation times
are modelled as naturals ordered as the timestamps they stand for. -/
structure Message where
  id : String
  conversation_id : String
  sender_id : String
  content : String
  created_at : Nat
deriving DecidableEq, Repr

/-- Creation-time comparison between two messages. -/
def byTime (x y : Message) : Prop := x.created_at ≤ y.created_at

instance : DecidableRel byTime := fun _ _ => Nat.decLe _ _

instance : IsTotal Message byTime := ⟨fun _ _ => Nat.le_total _ _⟩

instance : IsTrans Message byTime := ⟨fun _ _ _ => Nat.le_trans⟩

/-- A message sequence is chronological when it is non-decreasing by
creation time. -/
def Chronological (l : List Message) : Prop := List.Sorted byTime l

instance (l : List Message) : Decidable (Chronological l) :=
  List.instDecidablePairwise l

/-- The database side of the initial page query: the rows of the
conversation ordered by `created_at` ascending, `limit(100)`. -/
def loadMessages (table : List Message) (cid : String) : List Message :=
  (List.insertionSort byTime
    (table.filter (fun m => m.conversation_id == cid))).take 100

/-- The push-subscription merge of initChat: a delivered insert is dropped
when some local message already has its id, and appended otherwise
(`prev.some(m => m.id === newMsg.id) ? prev : [...prev, newMsg]`). -/
def pushInsert (prev : List Message) (newMsg : Message) : List Message :=
  if prev.any (fun m => m.id == newMsg.id) then prev else prev ++ [newMsg]

/-- C3: merging a pushed insert whose id is already present is a no-op, so
any run of such duplicate inserts leaves the visible sequence literally
unchanged (same length, same elements). -/
theorem pushInsert_duplicates_noop (l ds : List Message)
    (h : ∀ d ∈ ds, ∃ m ∈ l, m.id = d.id) :
    ds.foldl pushInsert l = l := by
  induction ds with
  | nil => rfl
  | cons d ds ih =>
    have hd : pushInsert l d = l := by
      obtain ⟨m, hm, hid⟩ := h d (List.mem_cons_self d ds)
      unfold pushInsert
      have hany : l.any (fun m => m.id == d.id) = true :=
        List.any_eq_true.mpr ⟨m, hm, beq_iff_eq.mpr hid⟩
      rw [hany, if_pos rfl]
    rw [List.foldl_cons, hd]
    exact ih fun d' hd' => h d' (List.mem_cons_of_mem d hd')

/-- Local message at time 5. -/
def msgA : Message := ⟨"a", "c", "s", "first", 5⟩

/-- Pushed message with a fresh id but an earlier creation time. -/
def msgB : Message := ⟨"b", "c", "s", "second", 3⟩

/-- C3 witness: two pushes whose ids already sit in the list change
nothing. -/
theorem pushInsert_duplicates_noop_witness :
    [⟨"a", "c", "s", "echo", 9⟩, msgA].foldl pushInsert [msgA, msgB]
      = [msgA, msgB] :=
  pushInsert_duplicates_noop [msgA, msgB] [⟨"a", "c", "s", "echo", 9⟩, msgA]
    (by decide)

/-- C4 counterexample: starting from the (empty) initial page of
conversation c, the push channel delivers message a (time 5) and then
message b (time 3); both are appended as-is and the merged sequence is no
longer non-decreasing by creation time. -/
theorem merged_sequence_not_chronological :
    ¬ Chronological (pushInsert (pushInsert (loadMessages [] "c") msgA) msgB) := by
  decide

/-- C4 amended: the initial page load is chronological, and an append —
whether the push merge or the optimistic tail append — preserves
chronological order exactly when the arriving message is not earlier than
the messages already present; nothing re-sorts an out-of-order arrival. -/
theorem chronological_amended :
    (∀ table cid, Chronological (loadMessages table cid)) ∧
    (∀ l m, Chronological l → (∀ x ∈ l, byTime x m) →
      Chronological (pushInsert l m)) ∧
    (∀ l m, Chronological l → (∀ x ∈ l, byTime x m) →
      Chronological (l ++ [m])) := by
  have happend : ∀ l m, Chronological l → (∀ x ∈ l, byTime x m) →
      Chronological (l ++ [m]) := by
    intro l m hl hm
    unfold Chronological List.Sorted at hl ⊢
    rw [List.pairwise_append]
    exact ⟨hl, List.pairwise_singleton _ _,
      fun a ha b hb => (List.mem_singleton.mp hb) ▸ hm a ha⟩
  refine ⟨?_, ?_, happend⟩
  · intro table cid
    have hs : Chronological
        (List.insertionSort byTime
          (table.filter (fun m => m.conversation_id == cid))) :=
      List.sorted_insertionSort byTime _
    exact List.Pairwise.sublist (List.take_sublist _ _) hs
  · intro l m hl hm
    unfold pushInsert
    by_cases hany : l.any (fun x => x.id == m.id) = true
    · rw [if_pos hany]; exact hl
    · rw [if_neg hany]; exact happend l m hl hm

/-- C4 amended witness: appending a later message to a chronological list
keeps it chronological. -/
theorem chronological_amended_witness :
    Chronological (pushInsert [msgB] msgA) :=
  chronological_amended.2.1 [msgB] msgA (by decide) (by decide)

/-- Drop the leading whitespace characters of a character list. -/
def dropLeadingWhite : List Char → List Char
  | [] => []
  | c :: cs => if c.isWhitespace then dropLeadingWhite cs else c :: cs

/-- The trim() call applied to the draft: strip whitespace from both ends
of the string. -/
def jsTrim (s : String) : String :=
  ⟨(dropLeadingWhite (dropLeadingWhite s.data).reverse).reverse⟩

/-- The local component state handleSend works on: the visible message
list, the input field, the sending flag, and the conversation/sender
refs. -/
structure SendState where
  messages : List Message
  newMessage : String
  sending : Bool
  conversationId : Option String
  senderId : Option String
deriving DecidableEq, Repr

/-- Outcome of the awaited backend insert: the confirmed row as returned
by select().single(), or a thrown error. -/
inductive SendOutcome where
  | success (srv : Message)
  | failure
deriving DecidableEq, Repr

/-- The placeholder id synthesized on submit (template literal
temp-Date.now()). -/
def tempIdOf (now : Nat) : String := "temp-" ++ toString now

/-- The success-path reconciliation
(prev.map(m => m.id === tempMsg.id ? data : m)). -/
def reconcile (l : List Message) (tempId : String) (srv : Message) :
    List Message :=
  l.map (fun m => if m.id = tempId then srv else m)

/-- The failure-path rollback (prev.filter(m => m.id !== tempMsg.id)). -/
def rollback (l : List Message) (tempId : String) : List Message :=
  l.filter (fun m => m.id != tempId)

/-- The synchronous head of handleSend: trim the draft, bail out when the
content is empty, the refs are unset or a send is in flight; otherwise
append the placeholder, clear the input and raise the sending flag,
handing back the intermediate state and the placeholder. -/
def sendStart (st : SendState) (now : Nat) :
    Option (SendState × Message) :=
  match st.conversationId, st.senderId with
  | some convId, some senderId =>
    if (jsTrim st.newMessage).data.isEmpty || st.sending then none
    else
      some ({ st with
                messages := st.messages ++
                  [⟨tempIdOf now, convId, senderId, jsTrim st.newMessage, now⟩]
                newMessage := ""
                sending := true },
        ⟨tempIdOf now, convId, senderId, jsTrim st.newMessage, now⟩)
  | _, _ => none

/-- The resumption after the awaited insert: on success replace the
placeholder with the server row, on failure drop the placeholder and
restore the trimmed draft; the finally block lowers the sending flag on
both paths. -/
def sendFinish (st : SendState) (tempMsg : Message) (outcome : SendOutcome) :
    SendState :=
  match outcome with
  | .success srv =>
    { st with messages := reconcile st.messages tempMsg.id srv, sending := false }
  | .failure =>
    { st with messages := rollback st.messages tempMsg.id, newMessage := tempMsg.content, sending := false }

/-- A whole submit: the guard and optimistic phase followed by the awaited
outcome; a guarded-out submit leaves the state untouched. -/
def handleSend (st : SendState) (now : Nat) (outcome : SendOutcome) :
    SendState :=
  match sendStart st now with
  | none => st
  | some (st', tempMsg) => sendFinish st' tempMsg outcome

/-- Component state with a draft that carries a trailing space. -/
def stDraft : SendState := ⟨[], "hi ", false, some "c", some "s"⟩

/-- The state sendStart leaves for stDraft at time 0. -/
def stAfterStart : SendState :=
  ⟨[⟨"temp-0", "c", "s", "hi", 0⟩], "", true, some "c", some "s"⟩

/-- The placeholder sendStart synthesizes for stDraft at time 0. -/
def tmpMsg0 : Message := ⟨"temp-0", "c", "s", "hi", 0⟩

/-- C5 counterexample: the user typed the draft with a trailing space; the
failed send restores the trimmed content, not the draft exactly as
typed. -/
theorem send_failure_restore_counterexample :
    (handleSend stDraft 0 .failure).newMessage ≠ stDraft.newMessage := by
  decide

/-- C5 amended: when the submit passes the guard and the backend write
fails, the placeholder is removed — the visible sequence returns to
exactly what it was — and the input field is restored to the trimmed
draft. -/
theorem send_failure_rollback (st : SendState) (now : Nat) (st' : SendState)
    (tmp : Message) (h : sendStart st now = some (st', tmp))
    (hfresh : ∀ m ∈ st.messages, m.id ≠ tempIdOf now) :
    (handleSend st now .failure).messages = st.messages ∧
    (handleSend st now .failure).newMessage = jsTrim st.newMessage := by
  unfold handleSend
  rw [h]
  unfold sendStart at h
  split at h
  · split at h
    · exact absurd h (by simp)
    · injection h with h'
      injection h' with h1 h2
      subst h1; subst h2
      refine ⟨?_, rfl⟩
      have h1 : List.filter (fun m => m.id != tempIdOf now) st.messages
          = st.messages :=
        List.filter_eq_self.mpr fun m hm => bne_iff_ne.mpr (hfresh m hm)
      simp only [sendFinish, rollback, List.filter_append, h1]
      simp
  · exact absurd h (by simp)

/-- C5 amended witness: the concrete draft with a trailing space rolls
back to an unchanged list and the trimmed draft. -/
theorem send_failure_rollback_witness :
    (handleSend stDraft 0 .failure).messages = stDraft.messages ∧
    (handleSend stDraft 0 .failure).newMessage = jsTrim stDraft.newMessage :=
  send_failure_rollback stDraft 0 stAfterStart tmpMsg0 (by decide) (by decide)

/-- C6: a submit that passes the guard raises the sending flag for the
duration of the write, and the finally block lowers it whichever way the
write ends. -/
theorem sending_flag_cleared (st : SendState) (now : Nat) (st' : SendState)
    (tmp : Message) (h : sendStart st now = some (st', tmp)) :
    st'.sending = true ∧
    ∀ o, (handleSend st now o).sending = false := by
  constructor
  · unfold sendStart at h
    split at h
    · split at h
      · exact absurd h (by simp)
      · injection h with h'
        injection h' with h1 _
        subst h1
        rfl
    · exact absurd h (by simp)
  · intro o
    unfold handleSend
    rw [h]
    cases o <;> rfl

/-- C6 witness: the concrete submit raises then clears the flag on both
outcomes. -/
theorem sending_flag_cleared_witness :
    stAfterStart.sending = true ∧
    (handleSend stDraft 0 (.success ⟨"m1", "c", "s", "hi", 1⟩)).sending = false ∧
    (handleSend stDraft 0 .failure).sending = false :=
  ⟨(sending_flag_cleared stDraft 0 stAfterStart tmpMsg0 (by decide)).1,
   (sending_flag_cleared stDraft 0 stAfterStart tmpMsg0 (by decide)).2
     (.success ⟨"m1", "c", "s", "hi", 1⟩),
   (sending_flag_cleared stDraft 0 stAfterStart tmpMsg0 (by decide)).2 .failure⟩

/-- C10: the reconciliation map leaves the length unchanged and rewrites
exactly the positions holding the placeholder id, every other entry
staying what it was. -/
theorem reconcile_frame (l : List Message) (tempId : String) (srv : Message) :
    (reconcile l tempId srv).length = l.length ∧
    ∀ (i : Nat) (h : i < l.length),
      (reconcile l tempId srv).get ⟨i, by simpa [reconcile] using h⟩ =
        if (l.get ⟨i, h⟩).id = tempId then srv else l.get ⟨i, h⟩ := by
  constructor
  · simp [reconcile]
  · intro i h
    simp [reconcile, List.get_eq_getElem]

/-- The server-confirmed row for the first message. -/
def msgSrv : Message := ⟨"srv", "c", "s", "first", 6⟩

/-- C10 witness: reconciling against id a leaves position 1 (id b)
untouched. -/
theorem reconcile_frame_witness :
    (reconcile [msgA, msgB] "a" msgSrv).get ⟨1, by decide⟩ = msgB :=
  ((reconcile_frame [msgA, msgB] "a" msgSrv).2 1 (by decide)).trans (by decide)

/-- A directory profile as the client holds it after formatting. -/
structure Profile where
  id : String
  user_id : String
  username : String
  email : String
  created_at : Nat
deriving DecidableEq, Repr

/-- A profiles row as the backend select returns it; the empty string
stands for a null-or-empty (falsy) column. -/
structure ProfileRow where
  id : String
  user_id : String
  username : String
  email : String
  created_at : Nat
deriving DecidableEq, Repr

/-- The JavaScript a-or-else-b on strings: the empty (falsy) string falls
through to the alternative. -/
def jsOr (a b : String) : String := if a.data.isEmpty then b else a

/-- The email local part, split at the first at sign
(email.split at-sign, first component). -/
def localPart (s : String) : String := ⟨s.data.takeWhile (fun c => c ≠ '@')⟩

/-- The formattedProfile built from a fetched row: username falls back to
the email local part and then to the literal User. -/
def formatProfile (row : ProfileRow) : Profile :=
  { id := row.id
    user_id := row.user_id
    username := jsOr row.username (jsOr (localPart row.email) "User")
    email := row.email
    created_at := row.created_at }

/-- The profileCache ref: user id to profile, newest entry first, as the
Map the provider keeps. -/
def cacheLookup (cache : List (String × Profile)) (userId : String) :
    Option Profile :=
  (cache.find? (fun e => e.1 == userId)).map (fun e => e.2)

/-- Map.set: the new binding shadows any older one. -/
def cacheInsert (cache : List (String × Profile)) (userId : String)
    (p : Profile) : List (String × Profile) :=
  (userId, p) :: cache

/-- What the backend single() call hands back: a row, the PGRST116
no-row-matched error, or any other failure. -/
inductive FetchResult where
  | found (row : ProfileRow)
  | notFound
  | backendFailure
deriving DecidableEq, Repr

/-- What a fetchProfile call produced: the returned profile, the cache it
left behind, and whether it issued a backend request at all. -/
structure FetchOutput where
  result : Option Profile
  cache : List (String × Profile)
  queried : Bool
deriving DecidableEq, Repr

/-- fetchProfile of the provider: a cache hit returns the entry with no
backend request; otherwise the select runs, a found row is formatted and
cached, a PGRST116 no-row result returns null, and any other error is
caught, logged and also returns null — neither of the last two touches
the cache. -/
def fetchProfile (cache : List (String × Profile)) (userId : String)
    (backend : FetchResult) : FetchOutput :=
  match cacheLookup cache userId with
  | some p => ⟨some p, cache, false⟩
  | none =>
    match backend with
    | .found row =>
      ⟨some (formatProfile row), cacheInsert cache userId (formatProfile row), true⟩
    | .notFound => ⟨none, cache, true⟩
    | .backendFailure => ⟨none, cache, true⟩

/-- C9: on a cache miss, a not-found lookup and a failed lookup both
return null without raising and leave the cache untouched; a found row is
returned, formatted and inserted, after which the entry is canonical —
later lookups return it without querying the backend again. -/
theorem fetchProfile_negative_not_cached (cache : List (String × Profile))
    (uid : String) (hmiss : cacheLookup cache uid = none) :
    fetchProfile cache uid .notFound = ⟨none, cache, true⟩ ∧
    fetchProfile cache uid .backendFailure = ⟨none, cache, true⟩ ∧
    (∀ row, fetchProfile cache uid (.found row) =
      ⟨some (formatProfile row), cacheInsert cache uid (formatProfile row), true⟩) ∧
    (∀ row backendLater,
      fetchProfile (cacheInsert cache uid (formatProfile row)) uid backendLater =
        ⟨some (formatProfile row), cacheInsert cache uid (formatProfile row), false⟩) := by
  refine ⟨?_, ?_, ?_, ?_⟩
  · unfold fetchProfile; rw [hmiss]
  · unfold fetchProfile; rw [hmiss]
  · intro row; unfold fetchProfile; rw [hmiss]
  · intro row backendLater
    unfold fetchProfile
    have hhit : cacheLookup (cacheInsert cache uid (formatProfile row)) uid
        = some (formatProfile row) := by
      unfold cacheLookup cacheInsert
      simp [List.find?]
    rw [hhit]

/-- A concrete fetched row. -/
def rowDemo : ProfileRow := ⟨"p1", "u1", "", "alice@example.com", 7⟩

/-- C9 witness: on the empty cache the negative paths cache nothing, the
later-provisioned rowDemo becomes visible, and once fetched it is served
from the cache without another request. -/
theorem fetchProfile_negative_not_cached_witness :
    fetchProfile [] "u1" .notFound = ⟨none, [], true⟩ ∧
    fetchProfile [] "u1" .backendFailure = ⟨none, [], true⟩ ∧
    fetchProfile [] "u1" (.found rowDemo) =
      ⟨some (formatProfile rowDemo), cacheInsert [] "u1" (formatProfile rowDemo), true⟩ ∧
    fetchProfile (cacheInsert [] "u1" (formatProfile rowDemo)) "u1" .notFound =
      ⟨some (formatProfile rowDemo), cacheInsert [] "u1" (formatProfile rowDemo), false⟩ :=
  ⟨(fetchProfile_negative_not_cached [] "u1" (by decide)).1,
   (fetchProfile_negative_not_cached [] "u1" (by decide)).2.1,
   (fetchProfile_negative_not_cached [] "u1" (by decide)).2.2.1 rowDemo,
   (fetchProfile_negative_not_cached [] "u1" (by decide)).2.2.2 rowDemo .notFound⟩

/-- The provider state signOut acts on: the published user and profile,
the loading flag and the profile cache. -/
structure AuthState where
  user : Option String
  profile : Option Profile
  loading : Bool
  cache : List (String × Profile)
deriving DecidableEq, Repr

/-- Whether the backend auth call came back clean or with an error. -/
inductive AuthCallResult where
  | ok
  | err
deriving DecidableEq, Repr

/-- signOut of the provider: a backend error is thrown to the caller;
otherwise the user and profile are cleared and the profile cache is
emptied. -/
def signOut (st : AuthState) : AuthCallResult → Except Unit AuthState
  | .err => .error ()
  | .ok => .ok { user := none, profile := none, loading := st.loading, cache := [] }

/-- C8: a successful sign-out publishes no user and no profile and leaves
an empty cache, so looking the previously-cached id up afterwards misses
the cache, issues a backend request, and returns whatever the backend now
holds rather than the stale entry. -/
theorem signOut_clears_cache (st : AuthState) (uid : String) (p : Profile)
    (hcached : cacheLookup st.cache uid = some p) :
    signOut st .ok =
      .ok { user := none, profile := none, loading := st.loading, cache := [] } ∧
    (∀ backend, (fetchProfile ([] : List (String × Profile)) uid backend).queried
      = true) ∧
    (∀ row, (fetchProfile ([] : List (String × Profile)) uid (.found row)).result
      = some (formatProfile row)) := by
  refine ⟨rfl, fun backend => ?_, fun row => rfl⟩
  cases backend <;> rfl

/-- A cached demo profile. -/
def profileDemo : Profile := ⟨"p1", "u1", "alice", "alice@example.com", 7⟩

/-- Provider state holding profileDemo in its cache. -/
def stSignedIn : AuthState :=
  ⟨some "u1", some profileDemo, false, [("u1", profileDemo)]⟩

/-- C8 witness: signing stSignedIn out empties the cache, and a lookup of
the previously-cached id then queries the backend and returns the fresh
row rather than the stale entry. -/
theorem signOut_clears_cache_witness :
    signOut stSignedIn .ok = .ok ⟨none, none, false, []⟩ ∧
    (fetchProfile ([] : List (String × Profile)) "u1" .notFound).queried = true ∧
    (fetchProfile ([] : List (String × Profile)) "u1" (.found rowDemo)).result
      = some (formatProfile rowDemo) :=
  ⟨(signOut_clears_cache stSignedIn "u1" profileDemo (by decide)).1,
   (signOut_clears_cache stSignedIn "u1" profileDemo (by decide)).2.1 .notFound,
   (signOut_clears_cache stSignedIn "u1" profileDemo (by decide)).2.2 rowDemo⟩

/-- The asynchronous completions that can reach the provider while it
bootstraps: the 2000 ms safety timer, the getSession round trip resolving
(with or without a session user), and an auth-state-change notification. -/
inductive AuthEvent where
  | timerFired
  | sessionResolved (userId : Option String)
  | authChanged (userId : Option String)
deriving DecidableEq, Repr

/-- The provider's published identity and loading flag during bootstrap. -/
structure BootState where
  user : Option String
  loading : Bool
deriving DecidableEq, Repr

/-- How each completion updates the published state: the safety timer
clears loading; a resolved session publishes its user (if any) and the
finally block clears loading; the change listener publishes or clears the
user and then clears loading. -/
def authStep (st : BootState) : AuthEvent → BootState
  | .timerFired => { st with loading := false }
  | .sessionResolved none => { st with loading := false }
  | .sessionResolved (some uid) => { user := some uid, loading := false }
  | .authChanged none => { user := none, loading := false }
  | .authChanged (some uid) => { user := some uid, loading := false }

/-- Replay a sequence of completions over the provider state. -/
def runAuth (st : BootState) (tr : List AuthEvent) : BootState :=
  tr.foldl authStep st

/-- The state the provider mounts with: no user, loading. -/
def initialBootState : BootState := ⟨none, true⟩

/-- The safety timer delay the provider registers at mount. -/
def bootstrapTimeoutMs : Nat := 2000

/-- Every completion leaves the loading flag cleared. -/
theorem authStep_loading (st : BootState) (e : AuthEvent) :
    (authStep st e).loading = false := by
  cases e with
  | timerFired => rfl
  | sessionResolved u => cases u <;> rfl
  | authChanged u => cases u <;> rfl

/-- After any nonempty completion sequence the provider is not loading. -/
theorem runAuth_loading (st : BootState) (tr : List AuthEvent)
    (h : tr ≠ []) : (runAuth st tr).loading = false := by
  induction tr generalizing st with
  | nil => exact absurd rfl h
  | cons e rest ih =>
    cases rest with
    | nil => exact authStep_loading st e
    | cons e2 rest2 => exact ih (authStep st e) (by simp)

/-- C7: even when the backend handshake never resolves, the 2000 ms
safety timer firing leaves the provider in a non-loading state, so
bootstrap cannot block the UI indefinitely. -/
theorem bootstrap_timeout_unblocks (tr : List AuthEvent)
    (hnoresp : ∀ u, AuthEvent.sessionResolved u ∉ tr)
    (htimer : AuthEvent.timerFired ∈ tr) :
    (runAuth initialBootState tr).loading = false ∧
    bootstrapTimeoutMs = 2000 :=
  ⟨runAuth_loading initialBootState tr (List.ne_nil_of_mem htimer), rfl⟩

/-- C7 witness: the trace where only the safety timer ever fires ends
non-loading. -/
theorem bootstrap_timeout_unblocks_witness :
    (runAuth initialBootState [AuthEvent.timerFired]).loading = false ∧
    bootstrapTimeoutMs = 2000 :=
  bootstrap_timeout_unblocks [AuthEvent.timerFired]
    (fun u => by simp) (by simp)

end Chatbox
